import Mathlib

/-!
Verification development for the sonicdrivestudio-storefront caching and
session-invalidation subsystem.

The definitions below are a shallow embedding of:
* `public/sw.js` — the service worker (CacheGateway): never-cache patterns,
  route strategy table, the fetch handler, and the caching strategies
  cache-first, network-first and stale-while-revalidate;
* the urql `authErrorExchange` (client-side auth-expiry monitor) and the
  `useInactivityTimeout` hook (inactivity-driven logout);
* `executeGraphQL` (server-side request executor) — its memoized-cache
  gating predicate `shouldUseCache` and the `unstable_cache` branch;
* `errorFilterExchange.ts` — the checkout error-filtering exchange.

JavaScript regular-expression tests on URL strings are embedded as
substring / ordered-substring matching over `List Char`; JS string
`includes` becomes substring containment.  Caches are modelled as
functions from keys to optional entries.  Network calls are modelled by
their outcome (`Except` of failure or response), which is how success and
failure of a fetch are distinguished at the call sites being verified.
-/

/-! ## String matching primitives -/

/-- Substring test: `subStr n h` is true iff the character list `n` occurs
contiguously inside `h`.  Embeds both JS `String.prototype.includes` and a
regex test for a pattern that is a string literal. -/
def subStr : List Char → List Char → Bool
  | n, [] => n.isEmpty
  | n, h :: t => n.isPrefixOf (h :: t) || subStr n t

/-- Ordered two-part match: `seqMatch a b h` is true iff `h` contains an
occurrence of `a` followed (possibly after other characters) by an
occurrence of `b`.  Embeds a JS regex test for the pattern `A.*B`. -/
def seqMatch : List Char → List Char → List Char → Bool
  | a, b, [] => a.isEmpty && b.isEmpty
  | a, b, h :: t =>
    (a.isPrefixOf (h :: t) && subStr b ((h :: t).drop a.length)) || seqMatch a b t

/-- String-level substring containment: hay contains needle. -/
def strHas (needle hay : String) : Bool := subStr needle.data hay.data

/-- String-level ordered match for a regex of the shape `A.*B`. -/
def strSeq (a b hay : String) : Bool := seqMatch a.data b.data hay.data

/-- String-level suffix test, embedding a `$`-anchored regex alternative. -/
def strEnds (suf s : String) : Bool := suf.data.isSuffixOf s.data

/-- String-level prefix test, embedding `String.prototype.startsWith`. -/
def strStarts (p s : String) : Bool := p.data.isPrefixOf s.data

/-! ## Service worker data model (public/sw.js) -/

/-- A request as seen by the service worker fetch handler: its URL origin,
pathname and search (query) string. -/
structure SWRequest where
  origin : String
  pathname : String
  search : String
deriving DecidableEq

/-- The string the no-cache patterns are tested against, and the key under
which a cache entry for this request is stored: `url.pathname + url.search`. -/
def SWRequest.urlKey (r : SWRequest) : String := r.pathname ++ r.search

/-- A network response snapshot: HTTP status and body bytes. -/
structure SWResponse where
  status : Nat
  body : String
deriving DecidableEq

/-- The `ok` flag of a fetch `Response` per the WHATWG Fetch standard that
`sw.js` runs against: true iff the status is in the range 200..299. -/
def SWResponse.ok (r : SWResponse) : Bool := decide (200 ≤ r.status ∧ r.status ≤ 299)

/-- Embeds `shouldCacheResponse` from sw.js: `response.ok && response.status < 400`
(the truthiness check on `response` is vacuous in the embedding). -/
def shouldCacheResponse (r : SWResponse) : Bool := r.ok && decide (r.status < 400)

/-- A network fetch that did not produce a response: an abort (the timeout
controller fired) or another network error. -/
inductive NetFail where
  | abortError
  | networkError
deriving DecidableEq

/-- A cache store, keyed by the request URL key. -/
def CacheT : Type := String → Option SWResponse

/-- Store an entry, embedding `cache.put(request, response)`. -/
def cachePut (c : CacheT) (k : String) (v : SWResponse) : CacheT :=
  fun k' => if k' = k then some v else c k'

/-- The store with no entries. -/
def emptyCache : CacheT := fun _ => none

/-- Embeds `NO_CACHE_PATTERNS.some(p => p.test(url.pathname + url.search))`
from sw.js: the auth/session/checkout never-cache allow-list
`/\/api\/auth\//, /\/checkout/, /graphql.*tokenRefresh/, /graphql.*tokenCreate/,
/graphql.*tokenVerify/, /graphql.*checkout/`. -/
def testNoCache (u : String) : Bool :=
  strHas "/api/auth/" u ||
  strHas "/checkout" u ||
  strSeq "graphql" "tokenRefresh" u ||
  strSeq "graphql" "tokenCreate" u ||
  strSeq "graphql" "tokenVerify" u ||
  strSeq "graphql" "checkout" u

/-- Embeds the regex `/\.(woff2|woff|ttf|eot)$/` tested on the pathname. -/
def isFontPath (p : String) : Bool :=
  strEnds ".woff2" p || strEnds ".woff" p || strEnds ".ttf" p || strEnds ".eot" p

/-- Embeds the regex `/\.(png|jpg|jpeg|svg|gif|webp|avif)$/` tested on the pathname. -/
def isImagePath (p : String) : Bool :=
  strEnds ".png" p || strEnds ".jpg" p || strEnds ".jpeg" p || strEnds ".svg" p ||
  strEnds ".gif" p || strEnds ".webp" p || strEnds ".avif" p

/-- Embeds the regex `/\/api\//` tested on the pathname. -/
def isApiPath (p : String) : Bool := strHas "/api/" p

/-- Embeds the regex `/\/_next\/static\//` tested on the pathname. -/
def isNextStaticPath (p : String) : Bool := strHas "/_next/static/" p

/-- The four caching strategies named in `CACHE_STRATEGIES` of sw.js. -/
inductive CacheStrategy where
  | cacheFirstS
  | networkFirstS
  | networkOnlyS
  | staleWhileRevalidateS
deriving DecidableEq

/-- Embeds the `ROUTE_STRATEGIES` table of sw.js in order: fonts are
cache-first, images network-first, `/api/` network-only, `/_next/static/`
cache-first. -/
def ROUTE_STRATEGIES : List ((String → Bool) × CacheStrategy) :=
  [(isFontPath, .cacheFirstS),
   (isImagePath, .networkFirstS),
   (isApiPath, .networkOnlyS),
   (isNextStaticPath, .cacheFirstS)]

/-- First-match-wins lookup in a strategy table, defaulting to
network-first, embedding the `for (const route of ROUTE_STRATEGIES)` loop
with `let strategy = CACHE_STRATEGIES.NETWORK_FIRST` as the default. -/
def findStrategy : List ((String → Bool) × CacheStrategy) → String → CacheStrategy
  | [], _ => .networkFirstS
  | (m, s) :: rest, p => if m p then s else findStrategy rest p

/-- The strategy chosen for a pathname by the sw.js fetch handler. -/
def routeStrategy (p : String) : CacheStrategy := findStrategy ROUTE_STRATEGIES p

/-! ## Service worker strategies

Each strategy takes the request, the current cache store, and the outcome
of the (single) network fetch the strategy would issue for this request,
and returns the settled result together with the updated cache store. -/

/-- Embeds `cacheFirst` from sw.js: serve a stored entry if present;
otherwise fetch, store the response when `shouldCacheResponse` holds, and
return it; a fetch failure is rethrown. -/
def cacheFirst (r : SWRequest) (c : CacheT) (net : Except NetFail SWResponse) :
    Except NetFail SWResponse × CacheT :=
  match c r.urlKey with
  | some cached => (.ok cached, c)
  | none =>
    match net with
    | .ok resp =>
      (.ok resp, if shouldCacheResponse resp then cachePut c r.urlKey resp else c)
    | .error e => (.error e, c)

/-- Embeds `networkFirst` from sw.js: fetch; on success store when
cacheable and return it; on failure fall back to a stored entry, and
rethrow when none exists. -/
def networkFirst (r : SWRequest) (c : CacheT) (net : Except NetFail SWResponse) :
    Except NetFail SWResponse × CacheT :=
  match net with
  | .ok resp =>
    (.ok resp, if shouldCacheResponse resp then cachePut c r.urlKey resp else c)
  | .error e =>
    match c r.urlKey with
    | some cached => (.ok cached, c)
    | none => (.error e, c)

/-- Embeds `staleWhileRevalidate` from sw.js: the background fetch stores
its response when cacheable and, on failure, its rejection is caught and
replaced by the cached value (which may be absent, i.e. `none`); the
function resolves to `cached || fetchPromise`, so it never rejects. -/
def staleWhileRevalidate (r : SWRequest) (c : CacheT)
    (net : Except NetFail SWResponse) :
    Except NetFail (Option SWResponse) × CacheT :=
  let cached := c r.urlKey
  let c' := match net with
    | .ok resp => if shouldCacheResponse resp then cachePut c r.urlKey resp else c
    | .error _ => c
  let resolved : Except NetFail (Option SWResponse) :=
    match cached with
    | some v => .ok (some v)
    | none =>
      match net with
      | .ok resp => .ok (some resp)
      | .error _ => .ok cached
  (resolved, c')

/-- Embeds the sw.js `fetch` event listener: skip cross-origin requests;
skip requests matching a never-cache pattern; skip `.css`/`.js` files;
skip `/_next/static/` paths; otherwise look up the route strategy and
respond with it (network-only and the default switch branch do not call
`event.respondWith`, returning `none` here: the browser handles the
request and the store is untouched). -/
def handleFetch (selfOrigin : String) (r : SWRequest) (c : CacheT)
    (net : Except NetFail SWResponse) :
    Option (Except NetFail (Option SWResponse)) × CacheT :=
  if r.origin != selfOrigin then (none, c)
  else if testNoCache r.urlKey then (none, c)
  else if strEnds ".css" r.pathname || strEnds ".js" r.pathname then (none, c)
  else if strStarts "/_next/static/" r.pathname then (none, c)
  else
    match routeStrategy r.pathname with
    | .cacheFirstS =>
      (some ((cacheFirst r c net).1.map some), (cacheFirst r c net).2)
    | .networkFirstS =>
      (some ((networkFirst r c net).1.map some), (networkFirst r c net).2)
    | .staleWhileRevalidateS =>
      (some (staleWhileRevalidate r c net).1, (staleWhileRevalidate r c net).2)
    | .networkOnlyS => (none, c)

/-! ## Auth-expiry classifiers

These embed the string-matching predicates applied to error message text
at the three call sites: the client-side `authErrorExchange`
(`isSignatureExpired`), the server-side `executeGraphQL` transport catch
branch (`isAuthError`), and the server-side `executeGraphQL` structured
error-body branch (`hasSignatureExpired`). -/

/-- Embeds the per-message test of `isSignatureExpired` in the client-side
`authErrorExchange`: the message includes "Signature has expired",
"Invalid token" or "JWT". -/
def clientExpirySignature (m : String) : Bool :=
  strHas "Signature has expired" m || strHas "Invalid token" m || strHas "JWT" m

/-- Embeds `isAuthError` in the `executeGraphQL` transport catch branch:
the thrown error message includes "Cookies can only be modified",
"Signature has expired", "Invalid token", "JWT" or "Authentication". -/
def serverTransportAuthSignature (m : String) : Bool :=
  strHas "Cookies can only be modified" m ||
  strHas "Signature has expired" m ||
  strHas "Invalid token" m ||
  strHas "JWT" m ||
  strHas "Authentication" m

/-- Embeds the per-message test of `hasSignatureExpired` in the
`executeGraphQL` structured error-body branch: the GraphQL error message
includes "Signature has expired". -/
def serverBodyExpirySignature (m : String) : Bool :=
  strHas "Signature has expired" m

/-! ## Session invalidation triggers and step sequences

`authErrorExchange` (client auth-expiry monitor) and `handleLogout` of
`useInactivityTimeout` (inactivity monitor) both perform a session
invalidation sequence.  `handleLogout` is guarded by the mutable ref
`isLoggingOutRef`; `authErrorExchange` has no guard and re-runs its whole
sequence on every matching error. -/

/-- The observable actions an invalidation trigger performs, in source
order: the optional `onBeforeLogout` callback, `clearAllCookies()`, the
`postMessage(CLEAR_ALL_CACHES)` broadcast to the service worker, and the
`setTimeout`-scheduled navigation `window.location.href = target`. -/
inductive InvAction where
  | beforeLogoutCb
  | clearCookies
  | broadcastClearAll
  | scheduleNavigate (target : String)
deriving DecidableEq

/-- True exactly for the navigation-scheduling action. -/
def isNavAction : InvAction → Bool
  | .scheduleNavigate _ => true
  | _ => false

/-- The number of navigation steps in an action trace. -/
def navCount (tr : List InvAction) : Nat := tr.countP (fun a => isNavAction a)

/-- An auth-expiry signal arriving within one page lifetime: an
expired-signature error observed by `authErrorExchange`, or the
inactivity timer invoking `handleLogout`. -/
inductive AuthSignal where
  | expiredError
  | inactivityFire
deriving DecidableEq

/-- True exactly for expired-signature error signals. -/
def isExpiredSignal : AuthSignal → Bool
  | .expiredError => true
  | .inactivityFire => false

/-- True exactly for inactivity-timer signals. -/
def isInactivitySignal : AuthSignal → Bool
  | .expiredError => false
  | .inactivityFire => true

/-- One signal delivered against the current `isLoggingOutRef` flag,
returning the updated flag and the actions the trigger performs.
Embeds: `authErrorExchange` (no guard read or write — clear cookies,
broadcast, schedule `window.location.href = "/"`); `handleLogout`
(`if (isLoggingOutRef.current) return; isLoggingOutRef.current = true;`
then callback, clear cookies, broadcast, schedule navigation to
`/api/auth/clear-session`). -/
def signalStep : AuthSignal → Bool → Bool × List InvAction
  | .expiredError, fl =>
    (fl, [.clearCookies, .broadcastClearAll, .scheduleNavigate "/"])
  | .inactivityFire, fl =>
    if fl then (fl, [])
    else (true, [.beforeLogoutCb, .clearCookies, .broadcastClearAll,
                 .scheduleNavigate "/api/auth/clear-session"])

/-- Deliver a sequence of auth-expiry signals, threading the
`isLoggingOutRef` flag and concatenating the performed actions. -/
def runSignals : List AuthSignal → Bool → Bool × List InvAction
  | [], fl => (fl, [])
  | s :: rest, fl =>
    let (fl', acts) := signalStep s fl
    let (fl'', acts') := runSignals rest fl'
    (fl'', acts ++ acts')

/-- Run a list of steps where each is paired with whether it throws:
steps execute in order, a throwing step aborts the rest (no try/catch in
the source), and the result is the trace of completed steps together with
a normal-completion flag. -/
def runStepSeq : List (InvAction × Bool) → List InvAction × Bool
  | [] => ([], true)
  | (s, thr) :: rest =>
    if thr then ([], false)
    else
      let (tr, ok) := runStepSeq rest
      (s :: tr, ok)

/-- Fault model for the steps of `handleLogout`: whether the
`onBeforeLogout` callback, `clearAllCookies`, or the service worker
broadcast throws. -/
structure LogoutFaults where
  beforeLogoutThrows : Bool
  clearCookiesThrows : Bool
  broadcastThrows : Bool
deriving DecidableEq

/-- The step list of `handleLogout` in `useInactivityTimeout`, in source
order: `onBeforeLogout?.()`, `clearAllCookies()`, `postMessage(CLEAR_ALL_CACHES)`,
then `setTimeout(() => window.location.href = "/api/auth/clear-session", 100)`. -/
def handleLogoutSteps (f : LogoutFaults) : List (InvAction × Bool) :=
  [(.beforeLogoutCb, f.beforeLogoutThrows),
   (.clearCookies, f.clearCookiesThrows),
   (.broadcastClearAll, f.broadcastThrows),
   (.scheduleNavigate "/api/auth/clear-session", false)]

/-- Run `handleLogout` under a fault model. -/
def handleLogoutSeq (f : LogoutFaults) : List InvAction × Bool :=
  runStepSeq (handleLogoutSteps f)

/-- Fault model for the invalidation steps of `authErrorExchange`. -/
structure ExchangeFaults where
  clearCookiesThrows : Bool
  broadcastThrows : Bool
deriving DecidableEq

/-- The invalidation step list of `authErrorExchange`, in source order:
`clearAllCookies()`, `postMessage(CLEAR_ALL_CACHES)`, then
`setTimeout(() => window.location.href = "/", 100)`. -/
def authErrorSteps (f : ExchangeFaults) : List (InvAction × Bool) :=
  [(.clearCookies, f.clearCookiesThrows),
   (.broadcastClearAll, f.broadcastThrows),
   (.scheduleNavigate "/", false)]

/-- Run the `authErrorExchange` invalidation sequence under a fault model. -/
def authErrorSeq (f : ExchangeFaults) : List InvAction × Bool :=
  runStepSeq (authErrorSteps f)

/-! ## Server-side request executor (executeGraphQL) -/

/-- The caching-relevant options of `executeGraphQL`: the `cache` request
option, the `revalidate` TTL, the `withAuth` flag (the source defaults it
to true) and the invalidation tags. -/
structure ExecOptions where
  cache : Option String
  revalidate : Option Nat
  withAuth : Bool
  tags : List String
deriving DecidableEq

/-- Embeds `shouldUseCache` from `executeGraphQL`:
`revalidate !== undefined && cache !== "no-cache" && !withAuth`. -/
def shouldUseCache (o : ExecOptions) : Bool :=
  o.revalidate.isSome && !(o.cache == some "no-cache") && !o.withAuth

/-- A failure of `fetchData` inside `executeGraphQL`. -/
inductive ExecFailure where
  | httpError (status : Nat) (body : String)
  | graphqlError (messages : List String)
  | redirected (target : String)
  | transportError (message : String)
deriving DecidableEq

/-- The process-level memoized result cache backing `unstable_cache`,
keyed by `[operation.toString(), JSON.stringify(variables)]`. -/
def MemoCache (α : Type) : Type := String × String → Option α

/-- Insert into the memoized cache. -/
def memoPut {α : Type} (m : MemoCache α) (k : String × String) (v : α) : MemoCache α :=
  fun k' => if k' = k then some v else m k'

/-- Embeds the tail of `executeGraphQL`: when `shouldUseCache` holds, the
call goes through `unstable_cache(fetchData, [operation.toString(),
JSON.stringify(variables)], ...)` — a hit returns the memoized value, a
miss runs `fetchData` and memoizes a successful result; otherwise the call
runs `fetchData()` directly and the memoized cache is untouched.
`fetchData` itself is abstracted by its outcome `net`. -/
def executeGraphQLCached {α : Type} (opText varsJson : String) (o : ExecOptions)
    (net : Except ExecFailure α) (memo : MemoCache α) :
    Except ExecFailure α × MemoCache α :=
  if shouldUseCache o then
    match memo (opText, varsJson) with
    | some v => (.ok v, memo)
    | none =>
      match net with
      | .ok v => (.ok v, memoPut memo (opText, varsJson) v)
      | .error e => (.error e, memo)
  else (net, memo)

/-! ## Checkout error filter exchange (errorFilterExchange.ts) -/

/-- A segment of a GraphQL error path: a field name or a list index. -/
inductive PathSeg where
  | str (s : String)
  | idx (n : Nat)
deriving DecidableEq

/-- A GraphQL error as inspected by `errorFilterExchange`: its message,
its (optional) path, and `extensions.exception.code` when present. -/
structure GQLError where
  message : String
  path : Option (List PathSeg)
  exceptionCode : Option String
deriving DecidableEq

/-- The urql `CombinedError` as inspected by `errorFilterExchange`: a
top-level message and the (optionally absent) list of GraphQL errors. -/
structure CombinedError where
  message : String
  graphQLErrors : Option (List GQLError)
deriving DecidableEq

/-- An urql operation result as inspected by `errorFilterExchange`:
whether `result.data` is truthy, whether the raw result has an `errors`
field, and the optional combined error. -/
structure OpResult where
  hasData : Bool
  hasErrorsField : Bool
  error : Option CombinedError
deriving DecidableEq

/-- Embeds `isCheckoutUserPermissionError` from errorFilterExchange.ts:
the error has a path of length at least 2 beginning with the fields
`checkout` then `user`, and `extensions.exception.code` equals
`PermissionDenied`. -/
def isCheckoutUserPermissionError (e : GQLError) : Bool :=
  match e.path with
  | some (a :: b :: _) =>
    a == PathSeg.str "checkout" && b == PathSeg.str "user" &&
      e.exceptionCode == some "PermissionDenied"
  | _ => false

/-- Embeds `const filteredErrors = result.error?.graphQLErrors?.filter(...)`
from errorFilterExchange.ts: keep every error except the checkout.user
permission errors, preserving order. -/
def filteredErrors (errs : List GQLError) : List GQLError :=
  errs.filter (fun e => !isCheckoutUserPermissionError e)

/-- Embeds the `map` body of `errorFilterExchange`: when the result has an
error (or truthy data with a raw `errors` field), filter the combined
error's GraphQL errors, clearing the error when all were removed, keeping
a filtered error when some were, and passing the result through when none
were removed or no error list exists. -/
def errorFilterMap (r : OpResult) : OpResult :=
  if r.error.isSome || (r.hasData && r.hasErrorsField) then
    match r.error with
    | some ce =>
      match ce.graphQLErrors with
      | some errs =>
        let filtered := filteredErrors errs
        if filtered.length = 0 then { r with error := none }
        else if filtered.length ≠ errs.length then
          { r with error := some { ce with graphQLErrors := some filtered } }
        else r
      | none => r
    | none => r
  else r

/-- C3 counterexample: a network response with status 399 is not `ok`
under the Fetch standard, so `shouldCacheResponse` rejects it and neither
network-first nor cache-first stores it (it is still returned to the
caller), refuting the claim that a 399 response is stored. -/
theorem c3_status_399_counterexample :
    shouldCacheResponse ⟨399, "redirect-body"⟩ = false ∧
    (networkFirst ⟨"https://shop.example", "/products", ""⟩ emptyCache
      (Except.ok ⟨399, "redirect-body"⟩)).1 = Except.ok ⟨399, "redirect-body"⟩ ∧
    (networkFirst ⟨"https://shop.example", "/products", ""⟩ emptyCache
      (Except.ok ⟨399, "redirect-body"⟩)).2
      (SWRequest.urlKey ⟨"https://shop.example", "/products", ""⟩) = none ∧
    (cacheFirst ⟨"https://shop.example", "/products", ""⟩ emptyCache
      (Except.ok ⟨399, "redirect-body"⟩)).2
      (SWRequest.urlKey ⟨"https://shop.example", "/products", ""⟩) = none :=
  ⟨by decide, rfl, rfl, rfl⟩

/-- C3 amended: every strategy stores a fetched response exactly when
`shouldCacheResponse` holds, and `shouldCacheResponse` holds exactly for
statuses 200..299 (`ok` per the Fetch standard; the `status < 400`
conjunct is redundant): in particular a 400 response is never stored, and
a 399 response is never stored either. -/
theorem c3_cacheable_boundary_amended :
    ∀ (resp : SWResponse) (r : SWRequest) (c : CacheT),
      c r.urlKey = none →
      (shouldCacheResponse resp = true ↔ 200 ≤ resp.status ∧ resp.status ≤ 299) ∧
      (cacheFirst r c (Except.ok resp)).2 r.urlKey =
        (if shouldCacheResponse resp then some resp else none) ∧
      (networkFirst r c (Except.ok resp)).2 r.urlKey =
        (if shouldCacheResponse resp then some resp else none) ∧
      (staleWhileRevalidate r c (Except.ok resp)).2 r.urlKey =
        (if shouldCacheResponse resp then some resp else none) := by
  intro resp r c hc
  refine ⟨?_, ?_, ?_, ?_⟩
  · simp only [shouldCacheResponse, SWResponse.ok, Bool.and_eq_true, decide_eq_true_eq]
    omega
  · by_cases hs : shouldCacheResponse resp <;> simp [cacheFirst, hc, hs, cachePut]
  · by_cases hs : shouldCacheResponse resp <;> simp [networkFirst, hc, hs, cachePut]
  · by_cases hs : shouldCacheResponse resp <;> simp [staleWhileRevalidate, hc, hs, cachePut]

/-- C3 witness: the amended boundary facts evaluated on a 204 response at
an empty cache. -/
theorem c3_cacheable_boundary_witness :
    emptyCache (SWRequest.urlKey ⟨"https://shop.example", "/products", ""⟩) = none ∧
    ((shouldCacheResponse ⟨204, "nc"⟩ = true ↔ 200 ≤ (204 : Nat) ∧ (204 : Nat) ≤ 299) ∧
     (cacheFirst ⟨"https://shop.example", "/products", ""⟩ emptyCache
        (Except.ok ⟨204, "nc"⟩)).2
        (SWRequest.urlKey ⟨"https://shop.example", "/products", ""⟩) =
       (if shouldCacheResponse ⟨204, "nc"⟩ then some ⟨204, "nc"⟩ else none) ∧
     (networkFirst ⟨"https://shop.example", "/products", ""⟩ emptyCache
        (Except.ok ⟨204, "nc"⟩)).2
        (SWRequest.urlKey ⟨"https://shop.example", "/products", ""⟩) =
       (if shouldCacheResponse ⟨204, "nc"⟩ then some ⟨204, "nc"⟩ else none) ∧
     (staleWhileRevalidate ⟨"https://shop.example", "/products", ""⟩ emptyCache
        (Except.ok ⟨204, "nc"⟩)).2
        (SWRequest.urlKey ⟨"https://shop.example", "/products", ""⟩) =
       (if shouldCacheResponse ⟨204, "nc"⟩ then some ⟨204, "nc"⟩ else none)) :=
  ⟨rfl, c3_cacheable_boundary_amended ⟨204, "nc"⟩ ⟨"https://shop.example", "/products", ""⟩
    emptyCache rfl⟩

/-- C7: stale-while-revalidate always resolves (never rejects into the
caller, the background fetch failure being caught); when a stored entry
exists it resolves to that entry whatever the network outcome; and it
resolves to the network response only when no stored entry existed. -/
theorem c7_swr_stale_serving :
    ∀ (r : SWRequest) (c : CacheT) (net : Except NetFail SWResponse),
      (∃ w, (staleWhileRevalidate r c net).1 = Except.ok w) ∧
      (∀ v, c r.urlKey = some v →
        (staleWhileRevalidate r c net).1 = Except.ok (some v)) ∧
      (c r.urlKey = none → ∀ resp, net = Except.ok resp →
        (staleWhileRevalidate r c net).1 = Except.ok (some resp)) := by
  intro r c net
  refine ⟨?_, ?_, ?_⟩
  · rcases hc : c r.urlKey with _ | v
    · rcases net with e | resp
      · exact ⟨none, by simp [staleWhileRevalidate, hc]⟩
      · exact ⟨some resp, by simp [staleWhileRevalidate, hc]⟩
    · exact ⟨some v, by simp [staleWhileRevalidate, hc]⟩
  · intro v hv
    simp [staleWhileRevalidate, hv]
  · intro hv resp hnet
    subst hnet
    simp [staleWhileRevalidate, hv]

/-- C7 witness: with a stored entry and a failing background fetch, the
resolved value is the stored entry. -/
theorem c7_swr_stale_serving_witness :
    cachePut emptyCache "/img.png" ⟨200, "OLD"⟩
      (SWRequest.urlKey ⟨"https://shop.example", "/img.png", ""⟩) = some ⟨200, "OLD"⟩ ∧
    (staleWhileRevalidate ⟨"https://shop.example", "/img.png", ""⟩
      (cachePut emptyCache "/img.png" ⟨200, "OLD"⟩)
      (Except.error NetFail.networkError)).1 = Except.ok (some ⟨200, "OLD"⟩) :=
  ⟨rfl,
   (c7_swr_stale_serving ⟨"https://shop.example", "/img.png", ""⟩
     (cachePut emptyCache "/img.png" ⟨200, "OLD"⟩)
     (Except.error NetFail.networkError)).2.1 ⟨200, "OLD"⟩ rfl⟩

/-- C9: a request whose origin differs from the service worker's own
origin is skipped by the fetch handler before any classification: no
response is provided and the cache store is neither read nor written. -/
theorem c9_cross_origin_passthrough :
    ∀ (so : String) (r : SWRequest) (c : CacheT) (net : Except NetFail SWResponse),
      r.origin ≠ so → handleFetch so r c net = (none, c) := by
  intro so r c net h
  have hb : (r.origin != so) = true := by simpa [bne_iff_ne] using h
  unfold handleFetch
  simp [hb]

/-- C9 witness: a CDN-origin request passes through unchanged. -/
theorem c9_cross_origin_passthrough_witness :
    ("https://cdn.example" : String) ≠ "https://shop.example" ∧
    handleFetch "https://shop.example" ⟨"https://cdn.example", "/img.png", ""⟩
      emptyCache (Except.ok ⟨200, "x"⟩) = (none, emptyCache) :=
  ⟨by decide,
   c9_cross_origin_passthrough "https://shop.example"
     ⟨"https://cdn.example", "/img.png", ""⟩ emptyCache (Except.ok ⟨200, "x"⟩) (by decide)⟩

/-- C8 counterexample: the first request for `/_next/static/app.abc123.js`
with a succeeding network is not handled by any strategy — the fetch
listener skips `.js` and `/_next/static/` paths before consulting the
route table — so no response is provided by the gateway and nothing is
stored under the route's key, refuting the claimed store-and-return. -/
theorem c8_next_static_counterexample :
    (handleFetch "https://shop.example"
      ⟨"https://shop.example", "/_next/static/app.abc123.js", ""⟩ emptyCache
      (Except.ok ⟨200, "JSBYTES"⟩)).1 = none ∧
    (handleFetch "https://shop.example"
      ⟨"https://shop.example", "/_next/static/app.abc123.js", ""⟩ emptyCache
      (Except.ok ⟨200, "JSBYTES"⟩)).2 "/_next/static/app.abc123.js" = none :=
  ⟨rfl, rfl⟩

/-- C8 amended: `/_next/static/app.abc123.js` passes through the handler
untouched (cache unchanged, no gateway response); for a route that does
reach the cache-first strategy, such as the font asset
`/fonts/inter.woff2`, the first request stores and returns the network
result and a second request while the network is failing returns the
stored result unchanged. -/
theorem c8_cache_first_route_amended :
    handleFetch "https://shop.example"
      ⟨"https://shop.example", "/_next/static/app.abc123.js", ""⟩ emptyCache
      (Except.ok ⟨200, "JSBYTES"⟩) = (none, emptyCache) ∧
    (handleFetch "https://shop.example" ⟨"https://shop.example", "/fonts/inter.woff2", ""⟩
      emptyCache (Except.ok ⟨200, "FONTBYTES"⟩)).1 =
      some (Except.ok (some ⟨200, "FONTBYTES"⟩)) ∧
    (handleFetch "https://shop.example" ⟨"https://shop.example", "/fonts/inter.woff2", ""⟩
      emptyCache (Except.ok ⟨200, "FONTBYTES"⟩)).2 "/fonts/inter.woff2" =
      some ⟨200, "FONTBYTES"⟩ ∧
    (handleFetch "https://shop.example" ⟨"https://shop.example", "/fonts/inter.woff2", ""⟩
      (handleFetch "https://shop.example" ⟨"https://shop.example", "/fonts/inter.woff2", ""⟩
        emptyCache (Except.ok ⟨200, "FONTBYTES"⟩)).2
      (Except.error NetFail.networkError)).1 =
      some (Except.ok (some ⟨200, "FONTBYTES"⟩)) :=
  ⟨rfl, rfl, rfl, rfl⟩

/-- Navigation counting distributes over trace concatenation. -/
lemma navCount_append (a b : List InvAction) :
    navCount (a ++ b) = navCount a + navCount b := by
  simp [navCount, List.countP_append]

/-- Unfolding of signal delivery over a cons. -/
lemma runSignals_cons (s : AuthSignal) (rest : List AuthSignal) (fl : Bool) :
    runSignals (s :: rest) fl =
      ((runSignals rest (signalStep s fl).1).1,
       (signalStep s fl).2 ++ (runSignals rest (signalStep s fl).1).2) := by
  rcases h : signalStep s fl with ⟨fl', acts⟩
  rcases h2 : runSignals rest fl' with ⟨fl'', acts'⟩
  simp [runSignals, h, h2]

/-- Navigation count after a signal sequence, generalized over the initial
`isLoggingOutRef` flag: every expired-signature error schedules one
navigation unconditionally, while the inactivity path schedules one only
the first time it fires with the flag unset. -/
lemma runSignals_navCount (sigs : List AuthSignal) (fl : Bool) :
    navCount (runSignals sigs fl).2 =
      sigs.countP isExpiredSignal +
        (if fl then 0 else if sigs.any isInactivitySignal then 1 else 0) := by
  induction sigs generalizing fl with
  | nil => simp [runSignals, navCount]
  | cons s rest ih =>
    rw [runSignals_cons, navCount_append, ih]
    cases s <;> cases fl <;> by_cases hA : rest.any isInactivitySignal <;>
      simp [signalStep, navCount, List.countP_cons, isExpiredSignal,
        isInactivitySignal, isNavAction, hA] <;> omega

/-- C2 counterexample: two expired-signature errors within one page
lifetime make the client-side monitor schedule the invalidation
navigation twice — `authErrorExchange` has no guard flag — refuting the
exactly-once claim. -/
theorem c2_single_invalidation_counterexample :
    navCount (runSignals [AuthSignal.expiredError, AuthSignal.expiredError] false).2 = 2 ∧
    navCount (runSignals [AuthSignal.expiredError, AuthSignal.expiredError] false).2 ≠ 1 :=
  ⟨by decide, by decide⟩

/-- C2 amended: within one page lifetime, the inactivity-timeout path is
guarded by `isLoggingOutRef` and contributes at most one navigation (one
exactly when it fires at least once), but each expired-signature error
observed by the unguarded `authErrorExchange` schedules one further
navigation: the navigation step executes once per error signal plus once
when any inactivity firing occurred, not exactly once overall. -/
theorem c2_single_invalidation_amended :
    ∀ sigs : List AuthSignal,
      navCount (runSignals sigs false).2 =
        sigs.countP isExpiredSignal +
          (if sigs.any isInactivitySignal then 1 else 0) := by
  intro sigs
  simpa using runSignals_navCount sigs false

/-- C4 counterexample: the three auth-expiry classifiers are separate and
disagree — a message containing "Authentication" is an auth error for the
server transport branch but not for the client monitor, and one
containing "Invalid token" is an expiry signal for the client monitor but
not for the server structured-body branch — refuting the single shared
classifier claim. -/
theorem c4_shared_classifier_counterexample :
    serverTransportAuthSignature "Authentication credentials were not provided" = true ∧
    clientExpirySignature "Authentication credentials were not provided" = false ∧
    clientExpirySignature "Invalid token payload" = true ∧
    serverBodyExpirySignature "Invalid token payload" = false :=
  ⟨by decide, by decide, by decide, by decide⟩

/-- C4 amended: the classifiers are distinct but nested — every message
the client monitor recognizes is recognized by the server transport
branch, and every message the server body branch recognizes is recognized
by the client monitor. -/
theorem c4_classifier_containment_amended :
    ∀ m : String,
      (clientExpirySignature m = true → serverTransportAuthSignature m = true) ∧
      (serverBodyExpirySignature m = true → clientExpirySignature m = true) := by
  intro m
  constructor <;> intro h <;>
    simp only [clientExpirySignature, serverTransportAuthSignature,
      serverBodyExpirySignature, Bool.or_eq_true] at h ⊢ <;> tauto

/-- C4 witness: the containments evaluated on the shared signature text. -/
theorem c4_classifier_containment_witness :
    serverTransportAuthSignature "Signature has expired" = true ∧
    clientExpirySignature "Signature has expired" = true :=
  ⟨(c4_classifier_containment_amended "Signature has expired").1 (by decide),
   (c4_classifier_containment_amended "Signature has expired").2 (by decide)⟩

/-- C5 counterexample: with no step throwing, `handleLogout` runs its
steps as callback, cookie clearing, cache broadcast, navigation — so the
broadcast is not first and there is no query-cache clearing step — and
when the cookie-clearing step throws, neither `handleLogout` nor the
`authErrorExchange` sequence reaches the navigation step, refuting the
claimed order and the navigation-always-occurs guarantee. -/
theorem c5_invalidation_order_counterexample :
    (handleLogoutSeq ⟨false, false, false⟩).1 =
      [InvAction.beforeLogoutCb, InvAction.clearCookies, InvAction.broadcastClearAll,
       InvAction.scheduleNavigate "/api/auth/clear-session"] ∧
    (handleLogoutSeq ⟨false, false, false⟩).1.head? ≠ some InvAction.broadcastClearAll ∧
    navCount (handleLogoutSeq ⟨false, true, false⟩).1 = 0 ∧
    navCount (authErrorSeq ⟨true, false⟩).1 = 0 :=
  ⟨by decide, by decide, by decide, by decide⟩

/-- C5 amended: both invalidation sequences execute, in order, cookie
clearing, then the clear-all-caches broadcast, then the scheduled
navigation (with the optional callback first in `handleLogout`, and no
in-memory query-cache clearing step); when no step throws the navigation
is reached, but a throwing cookie-clearing step aborts the sequence and
the navigation does not occur. -/
theorem c5_invalidation_order_amended :
    ∀ (f : LogoutFaults) (g : ExchangeFaults),
      (f.beforeLogoutThrows = false → f.clearCookiesThrows = false →
        f.broadcastThrows = false →
        handleLogoutSeq f =
          ([InvAction.beforeLogoutCb, InvAction.clearCookies, InvAction.broadcastClearAll,
            InvAction.scheduleNavigate "/api/auth/clear-session"], true)) ∧
      (f.clearCookiesThrows = true → navCount (handleLogoutSeq f).1 = 0) ∧
      (g.clearCookiesThrows = false → g.broadcastThrows = false →
        authErrorSeq g =
          ([InvAction.clearCookies, InvAction.broadcastClearAll,
            InvAction.scheduleNavigate "/"], true)) ∧
      (g.clearCookiesThrows = true → navCount (authErrorSeq g).1 = 0) := by
  intro f g
  obtain ⟨a, b, c⟩ := f
  obtain ⟨d, e⟩ := g
  cases a <;> cases b <;> cases c <;> cases d <;> cases e <;>
    exact ⟨by decide, by decide, by decide, by decide⟩

/-- C5 witness: the amended characterization evaluated with no faults and
with a throwing cookie-clearing step. -/
theorem c5_invalidation_order_witness :
    handleLogoutSeq ⟨false, false, false⟩ =
      ([InvAction.beforeLogoutCb, InvAction.clearCookies, InvAction.broadcastClearAll,
        InvAction.scheduleNavigate "/api/auth/clear-session"], true) ∧
    navCount (handleLogoutSeq ⟨false, true, false⟩).1 = 0 ∧
    authErrorSeq ⟨false, false⟩ =
      ([InvAction.clearCookies, InvAction.broadcastClearAll,
        InvAction.scheduleNavigate "/"], true) ∧
    navCount (authErrorSeq ⟨true, false⟩).1 = 0 :=
  ⟨(c5_invalidation_order_amended ⟨false, false, false⟩ ⟨false, false⟩).1 rfl rfl rfl,
   (c5_invalidation_order_amended ⟨false, true, false⟩ ⟨false, false⟩).2.1 rfl,
   (c5_invalidation_order_amended ⟨false, false, false⟩ ⟨false, false⟩).2.2.1 rfl rfl,
   (c5_invalidation_order_amended ⟨false, false, false⟩ ⟨true, false⟩).2.2.2 rfl⟩

/-- C6: the memoized-cache gate of `executeGraphQL` holds exactly when the
call is unauthenticated, `revalidate` is set and the `cache` option is not
the no-cache override; a `withAuth` call leaves the memoized cache
unwritten and its result never depends on the cache contents, whatever
`revalidate` is; when the gate holds, a stored value under the key
`(operation text, serialized variables)` is returned as-is and a fetched
value is stored under that key. -/
theorem c6_memo_cache_gating :
    ∀ (α : Type) (opText varsJson : String) (o : ExecOptions)
      (net : Except ExecFailure α) (memo : MemoCache α),
      (shouldUseCache o = true ↔
        (o.withAuth = false ∧ o.revalidate ≠ none ∧ o.cache ≠ some "no-cache")) ∧
      (o.withAuth = true →
        (executeGraphQLCached opText varsJson o net memo).2 = memo ∧
        ∀ memo' : MemoCache α,
          (executeGraphQLCached opText varsJson o net memo).1 =
            (executeGraphQLCached opText varsJson o net memo').1) ∧
      (shouldUseCache o = true → ∀ v, memo (opText, varsJson) = some v →
        executeGraphQLCached opText varsJson o net memo = (Except.ok v, memo)) ∧
      (shouldUseCache o = true → memo (opText, varsJson) = none →
        ∀ v, net = Except.ok v →
          (executeGraphQLCached opText varsJson o net memo).2 (opText, varsJson) = some v) := by
  intro α opText varsJson o net memo
  refine ⟨?_, ?_, ?_, ?_⟩
  · rcases o with ⟨oc, orev, ow, otags⟩
    cases ow <;> cases orev <;> by_cases hcc : oc = some "no-cache" <;>
      simp [shouldUseCache, hcc]
  · intro hw
    have hs : shouldUseCache o = false := by simp [shouldUseCache, hw]
    constructor
    · simp [executeGraphQLCached, hs]
    · intro memo'
      simp [executeGraphQLCached, hs]
  · intro hs v hv
    simp [executeGraphQLCached, hs, hv]
  · intro hs hv v hnet
    subst hnet
    simp [executeGraphQLCached, hs, hv, memoPut]

/-- C6 witness: the gate and cache behavior evaluated on concrete calls —
an authenticated call leaving the memoized cache untouched, and an
unauthenticated cacheable call hitting a stored value. -/
theorem c6_memo_cache_gating_witness :
    (shouldUseCache ⟨none, some 60, false, []⟩ = true ↔
      ((⟨none, some 60, false, []⟩ : ExecOptions).withAuth = false ∧
       (⟨none, some 60, false, []⟩ : ExecOptions).revalidate ≠ none ∧
       (⟨none, some 60, false, []⟩ : ExecOptions).cache ≠ some "no-cache")) ∧
    (executeGraphQLCached "query q" "null" ⟨none, some 60, true, []⟩
      (Except.ok (7 : Nat)) (fun _ => none)).2 = (fun _ => none) ∧
    executeGraphQLCached "query q" "null" ⟨none, some 60, false, []⟩
      (Except.ok (7 : Nat)) (memoPut (fun _ => none) ("query q", "null") 5) =
      (Except.ok 5, memoPut (fun _ => none) ("query q", "null") 5) :=
  ⟨(c6_memo_cache_gating Nat "query q" "null" ⟨none, some 60, false, []⟩
      (Except.ok 7) (fun _ => none)).1,
   ((c6_memo_cache_gating Nat "query q" "null" ⟨none, some 60, true, []⟩
      (Except.ok 7) (fun _ => none)).2.1 rfl).1,
   (c6_memo_cache_gating Nat "query q" "null" ⟨none, some 60, false, []⟩
      (Except.ok 7) (memoPut (fun _ => none) ("query q", "null") 5)).2.2.1 rfl 5
      (by simp [memoPut])⟩

/-- Helper: a filter that removed nothing (by length) is the identity. -/
lemma filter_length_eq_self {α : Type} (p : α → Bool) (l : List α)
    (h : (l.filter p).length = l.length) : l.filter p = l := by
  simp at h
  exact List.filter_eq_self.mpr h

/-- C10: `errorFilterExchange` leaves results with no combined error
unchanged (also when the raw result carries an `errors` field), and on a
result whose combined error lists its GraphQL errors it replaces that
list by the order-preserving filter removing exactly the checkout.user
PermissionDenied errors, clearing the error entirely when every error was
removed; the data fields are untouched. -/
theorem c10_error_filter :
    ∀ r : OpResult,
      (r.error = none → errorFilterMap r = r) ∧
      (∀ ce errs, r.error = some ce → ce.graphQLErrors = some errs →
        (errorFilterMap r).error =
          (if filteredErrors errs = [] then none
           else some { ce with graphQLErrors := some (filteredErrors errs) }) ∧
        (errorFilterMap r).hasData = r.hasData ∧
        (errorFilterMap r).hasErrorsField = r.hasErrorsField) := by
  intro r
  constructor
  · intro h
    unfold errorFilterMap
    rw [h]
    split <;> rfl
  · intro ce errs he hg
    obtain ⟨hd, hef, er⟩ := r
    obtain ⟨msg, ge⟩ := ce
    simp only at he hg
    subst he
    subst hg
    by_cases hnil : (filteredErrors errs).length = 0
    · have hn : filteredErrors errs = [] := List.length_eq_zero.mp hnil
      refine ⟨?_, ?_, ?_⟩ <;>
        simp only [errorFilterMap, Option.isSome_some, Bool.true_or, if_true,
          filteredErrors] at hnil hn ⊢ <;>
        simp [hnil, hn]
    · have hn : ¬ filteredErrors errs = [] := by
        intro hx
        exact hnil (by simp [hx])
      by_cases heqL : (filteredErrors errs).length = errs.length
      · have hself : filteredErrors errs = errs :=
          filter_length_eq_self (fun e => !isCheckoutUserPermissionError e) errs heqL
        have hne : errs ≠ [] := hself ▸ hn
        refine ⟨?_, ?_, ?_⟩ <;>
          simp only [errorFilterMap, Option.isSome_some, Bool.true_or, if_true,
            filteredErrors] at hnil hn heqL hself ⊢ <;>
          simp [hnil, hn, heqL, hself, hne]
      · refine ⟨?_, ?_, ?_⟩ <;>
          simp only [errorFilterMap, Option.isSome_some, Bool.true_or, if_true,
            filteredErrors] at hnil hn heqL ⊢ <;>
          simp [hnil, hn, heqL]

/-- C10 witness: a mixed error list keeps only the non-checkout.user
error, in order. -/
theorem c10_error_filter_witness :
    (errorFilterMap
      ⟨true, false, some ⟨"combined",
        some [⟨"perm", some [PathSeg.str "checkout", PathSeg.str "user"],
                some "PermissionDenied"⟩,
              ⟨"other", none, none⟩]⟩⟩).error =
      (if filteredErrors
            [⟨"perm", some [PathSeg.str "checkout", PathSeg.str "user"],
               some "PermissionDenied"⟩,
             ⟨"other", none, none⟩] = [] then none
       else some ⟨"combined",
         some (filteredErrors
           [⟨"perm", some [PathSeg.str "checkout", PathSeg.str "user"],
              some "PermissionDenied"⟩,
            ⟨"other", none, none⟩])⟩) :=
  ((c10_error_filter
      ⟨true, false, some ⟨"combined",
        some [⟨"perm", some [PathSeg.str "checkout", PathSeg.str "user"],
                some "PermissionDenied"⟩,
              ⟨"other", none, none⟩]⟩⟩).2
    ⟨"combined",
      some [⟨"perm", some [PathSeg.str "checkout", PathSeg.str "user"],
              some "PermissionDenied"⟩,
            ⟨"other", none, none⟩]⟩
    [⟨"perm", some [PathSeg.str "checkout", PathSeg.str "user"], some "PermissionDenied"⟩,
     ⟨"other", none, none⟩] rfl rfl).1
